import Mathlib

set_option maxHeartbeats 1000000

namespace AniVerse

/-!
Verification of the AniVerse retrieval, ranking and conversational-action
engine.  Each definition is a shallow embedding of a function of the Python
backend (file and line references in the doc comments); theorems settle the
specification claims against these definitions.

Numeric conventions: Python floats are modelled as `ℚ`, integer ids and
timestamps as `ℕ`, ranks as `ℤ`.  `None` becomes `Option`.
-/

/-! ## Ranking engine — `backend/embeddings/search_utils.py` -/

/-- Python `round(x, 4)` on the combined score, modelled over `ℚ`
(half-way ties round up here; the claims under proof do not depend on the
tie-breaking direction). -/
def round4 (x : ℚ) : ℚ := (round (10000 * x) : ℤ) / 10000

/-- The popularity normalization inlined in `calculate_combined_score`
(`search_utils.py` lines 28-35): default `0.5` when the rank is absent or
non-positive (`if popularity and popularity > 0`), `1 - popularity/2000`
for ranks up to 1000, and `max(0.1, 0.5 - (popularity-1000)/20000)` beyond. -/
def normalized_pop (popularity : Option ℤ) : ℚ :=
  match popularity with
  | none => 1/2
  | some p =>
    if 0 < p then
      if p ≤ 1000 then 1 - (p : ℚ) / 2000
      else max (1/10) (1/2 - ((p : ℚ) - 1000) / 20000)
    else 1/2

/-- Models `calculate_combined_score` (`search_utils.py` lines 5-43).  The Python
`(anime_score or 0)` is the identity on a plain float except at `0`, written
out literally here. -/
def calculate_combined_score (similarity : ℚ) (anime_score : ℚ)
    (popularity : Option ℤ := none)
    (weight_similarity : ℚ := 6/10) (weight_anime_score : ℚ := 3/10)
    (weight_popularity : ℚ := 1/10) : ℚ :=
  let normalized_score := (if anime_score = 0 then 0 else anime_score) / 10
  round4 (weight_similarity * similarity + weight_anime_score * normalized_score
    + weight_popularity * normalized_pop popularity)

/-- The metadata fields of a search-result dict that `rerank_results` reads
(`r["metadata"].get("score", 0)` and `r["metadata"].get("popularity")`);
absent keys are `none`. -/
structure RMeta where
  score : Option ℚ
  popularity : Option ℤ
deriving DecidableEq

/-- A search-result dict as consumed by `rerank_results`: `r.get("similarity", 0)`
and `r.get("metadata", {})` may both be absent. -/
structure RItem where
  similarity : Option ℚ
  metadata : Option RMeta
deriving DecidableEq

/-- The combined score `rerank_results` attaches to a result
(`search_utils.py` lines 57-62). -/
def combined_of (r : RItem) : ℚ :=
  calculate_combined_score ((r.similarity).getD 0)
    (((r.metadata).getD ⟨none, none⟩).score.getD 0)
    (((r.metadata).getD ⟨none, none⟩).popularity)

/-- Models `rerank_results` (`search_utils.py` lines 46-67): attach the combined
score to each result, sort descending by it with Python's stable `sorted`
(modelled by `List.mergeSort`, which is stable), truncate to `limit`. -/
def rerank_results (results : List RItem) (limit : ℕ := 15) : List (RItem × ℚ) :=
  let scored := results.map (fun r => (r, combined_of r))
  (scored.mergeSort (fun a b => decide (b.2 ≤ a.2))).take limit

/-! ## Embedding index adapter — `backend/embeddings/chroma_store.py` -/

/-- A raw hit as the underlying collection reports it: id, metadata blob,
document text, and native distance. -/
structure QueryHit where
  mal_id : ℕ
  metadata : List (String × String)
  document : String
  distance : ℚ
deriving DecidableEq

/-- A formatted hit as `AnimeVectorStore` returns it, with
`similarity = 1 - distance`. -/
structure SimHit where
  mal_id : ℕ
  metadata : List (String × String)
  document : String
  similarity : ℚ
deriving DecidableEq

/-- The two collection operations `search_similar` uses, abstracting the
external ChromaDB collection: `collection.get(ids=[id], include=["documents"])`
(empty documents list for an unindexed id becomes `none`) and
`collection.query(query_texts, n_results, ...)`. -/
structure Collection where
  getDocument : ℕ → Option String
  query : String → ℕ → List QueryHit

/-- Result formatting shared by the store's query paths
(`chroma_store.py` lines 117-124 and 151-160). -/
def formatHit (h : QueryHit) : SimHit :=
  ⟨h.mal_id, h.metadata, h.document, 1 - h.distance⟩

/-- Models `AnimeVectorStore.search_similar` (`chroma_store.py` lines 128-162):
fetch the record's own document; if absent return `[]`; otherwise query with
`n_results + 1`, drop the seed id while formatting, truncate to `n_results`. -/
def search_similar (c : Collection) (mal_id : ℕ) (n_results : ℕ) : List SimHit :=
  match c.getDocument mal_id with
  | none => []
  | some doc =>
    let results := c.query doc (n_results + 1)
    ((results.filter (fun h => h.mal_id ≠ mal_id)).map formatHit).take n_results

/-! ## Search orchestration — `backend/routes/search.py` -/

/-- The module-level globals of `routes/search.py`: the cached vector-store
handle and the sticky construction-error flag. -/
structure SearchGlobals where
  vector_store : Option Unit
  vector_store_error : Option String
deriving DecidableEq

/-- The initial module state (both globals `None`). -/
def initGlobals : SearchGlobals := ⟨none, none⟩

/-- Models `get_vector_store_safe` (`search.py` lines 17-33), parameterized by the
outcome of `get_vector_store()` construction: a latched error short-circuits
to `None`; otherwise the handle is built once and cached; a construction
exception stores the error string and returns `None`. -/
def get_vector_store_safe (construct : Except String Unit) (g : SearchGlobals) :
    Option Unit × SearchGlobals :=
  if g.vector_store_error.isSome then (none, g)
  else
    match g.vector_store with
    | some s => (some s, g)
    | none =>
      match construct with
      | Except.ok s => (some s, { g with vector_store := some s })
      | Except.error e => (none, { g with vector_store_error := some e })

/-- One `semantic_search` request (`search.py` lines 103-137), parameterized
by the outcome of `store.search(...)` for this call (the `where`-filter
construction and `min_score` post-filter live inside that outcome) and by the
text-search fallback's results.  Returns the results, the pair
(index attempted?, fallback used?), and the updated globals. -/
def semantic_search_once {R : Type} (construct : Except String Unit)
    (queryStore : Except String (List R)) (fallback : List R)
    (g : SearchGlobals) : (List R × Bool × Bool) × SearchGlobals :=
  match get_vector_store_safe construct g with
  | (some _, g') =>
    match queryStore with
    | Except.ok rs => ((rs, true, false), g')
    | Except.error _ => ((fallback, true, true), g')
  | (none, g') => ((fallback, false, true), g')

/-- A sequence of `semantic_search` requests over the shared module globals;
returns the per-call (index attempted?, fallback used?) log. -/
def semantic_search_run {R : Type} (construct : Except String Unit)
    (fallback : List R) :
    List (Except String (List R)) → SearchGlobals →
      List (Bool × Bool) × SearchGlobals
  | [], g => ([], g)
  | q :: qs, g =>
    let step := semantic_search_once construct q fallback g
    let rest := semantic_search_run construct fallback qs step.2
    ((step.1.2.1, step.1.2.2) :: rest.1, rest.2)

/-! ## Intent detection — the regex rules of `backend/routes/chat.py`

A small backtracking matcher reproducing the Python `re` semantics the
action patterns rely on: literals, character classes, ordered alternation,
greedy `*`/`?`, lazy `+?`, and numbered capture groups.  `re.search` scans
left to right and returns the first position at which the pattern matches,
with Python's leftmost, preference-ordered backtracking. -/

/-- Regular-expression syntax used by the chat action patterns. -/
inductive RE where
  | eps : RE
  | lit : Char → RE
  | cls : (Char → Bool) → RE
  | cat : RE → RE → RE
  | alt : RE → RE → RE
  | starG : RE → RE
  | starL : RE → RE
  | opt : RE → RE
  | grp : ℕ → RE → RE

/-- Captured groups of a match, keyed by Python group number. -/
def Caps := List (ℕ × List Char)

/-- Record a capture (Python keeps the last text matched by a group). -/
def setCap (caps : Caps) (n : ℕ) (v : List Char) : Caps :=
  match caps with
  | [] => [(n, v)]
  | (m, w) :: rest => if m = n then (n, v) :: rest else (m, w) :: setCap rest n v

/-- Look up a capture; `none` when the group did not participate. -/
def getCap (caps : Caps) (n : ℕ) : Option (List Char) :=
  match caps with
  | [] => none
  | (m, w) :: rest => if m = n then some w else getCap rest n

/-- Backtracking matcher in continuation-passing style.  Alternation and the
greedy/lazy operators try alternatives in Python's preference order; `fuel`
bounds recursion depth (a successful parse of the concrete patterns below
never exhausts it). -/
def reMatch : ℕ → RE → List Char → Caps →
    (List Char → Caps → Option (List Char × Caps)) → Option (List Char × Caps)
  | 0, _, _, _, _ => none
  | fuel + 1, r, s, caps, k =>
    match r with
    | RE.eps => k s caps
    | RE.lit c =>
      match s with
      | [] => none
      | a :: s' => if a = c then k s' caps else none
    | RE.cls p =>
      match s with
      | [] => none
      | a :: s' => if p a then k s' caps else none
    | RE.cat r₁ r₂ =>
      reMatch fuel r₁ s caps (fun s' caps' => reMatch fuel r₂ s' caps' k)
    | RE.alt r₁ r₂ =>
      match reMatch fuel r₁ s caps k with
      | some res => some res
      | none => reMatch fuel r₂ s caps k
    | RE.starG r₁ =>
      match reMatch fuel r₁ s caps (fun s' caps' =>
          if s'.length < s.length then reMatch fuel (RE.starG r₁) s' caps' k
          else none) with
      | some res => some res
      | none => k s caps
    | RE.starL r₁ =>
      match k s caps with
      | some res => some res
      | none =>
        reMatch fuel r₁ s caps (fun s' caps' =>
          if s'.length < s.length then reMatch fuel (RE.starL r₁) s' caps' k
          else none)
    | RE.opt r₁ =>
      match reMatch fuel r₁ s caps k with
      | some res => some res
      | none => k s caps
    | RE.grp n r₁ =>
      reMatch fuel r₁ s caps (fun s' caps' =>
        k s' (setCap caps' n (s.take (s.length - s'.length))))

/-- Models `re.search`: try a match at each successive start position, returning the
captures of the first (leftmost) success. -/
def reSearch (fuel : ℕ) (r : RE) (s : List Char) : Option Caps :=
  match reMatch fuel r s [] (fun s' caps => some (s', caps)) with
  | some (_, caps) => some caps
  | none =>
    match s with
    | [] => none
    | _ :: s' => reSearch fuel r s'

/-- Recursion depth budget used for every pattern evaluation. -/
def regexFuel : ℕ := 4000

/-- A string literal as a regex. -/
def strRE (s : String) : RE := s.data.foldr (fun c r => RE.cat (RE.lit c) r) RE.eps

/-- Models `(?:a|b|c)` with Python's left-to-right preference. -/
def altList (r : RE) (rs : List RE) : RE := rs.foldl RE.alt r

/-- Sequence a list of regexes. -/
def catList (rs : List RE) : RE := rs.foldr RE.cat RE.eps

/-- Models `\s` (the inputs under proof contain only ASCII whitespace). -/
def wsChar : RE := RE.cls (fun c => c.isWhitespace)

/-- Greedy `+`. -/
def plusG (r : RE) : RE := RE.cat r (RE.starG r)

/-- Models `\s+`. -/
def wsP : RE := plusG wsChar

/-- Models `\s*`. -/
def wsS : RE := RE.starG wsChar

/-- Models `\d`. -/
def digitChar : RE := RE.cls (fun c => c.isDigit)

/-- Models `.` (anything but a newline). -/
def dotChar : RE := RE.cls (fun c => c ≠ '\n')

/-- Models `(.+?)` — the lazily-matched title reference, group 1. -/
def titleGrp : RE := RE.grp 1 (RE.cat dotChar (RE.starL dotChar))

/-- Models `(\d+(?:\.\d+)?)` — a rating with optional decimals, group `n`. -/
def numGrp (n : ℕ) : RE :=
  RE.grp n (RE.cat (plusG digitChar) (RE.opt (RE.cat (RE.lit '.') (plusG digitChar))))

/-- Models `(?:add|mark|set|put)`. -/
def verbAdd : RE := altList (strRE "add") [strRE "mark", strRE "set", strRE "put"]

/-- Models `(?:to|as|in)`. -/
def toAsIn : RE := altList (strRE "to") [strRE "as", strRE "in"]

/-- Models `(?:my\s+)?`. -/
def optMy : RE := RE.opt (RE.cat (strRE "my") wsP)

/-- Models `(?:manga\s+)?`. -/
def optMangaWs : RE := RE.opt (RE.cat (strRE "manga") wsP)

/-- Models `(?:\s+list)?`. -/
def optListSfx : RE := RE.opt (RE.cat wsP (strRE "list"))

/-- Models `(?:\s+with\s+(?:a\s+)?rating\s+(?:of\s+)?(\d+(?:\.\d+)?))?`. -/
def ratingSuffix : RE :=
  RE.opt (catList [wsP, strRE "with", wsP, RE.opt (RE.cat (strRE "a") wsP),
    strRE "rating", wsP, RE.opt (RE.cat (strRE "of") wsP), numGrp 2])

/-- Models `(?:rate|give|score)`. -/
def verbRate : RE := altList (strRE "rate") [strRE "give", strRE "score"]

/-- Models `\s*(?:out of 10|/10|stars?)?`. -/
def rateTail : RE :=
  RE.cat wsS (RE.opt (altList (strRE "out of 10")
    [strRE "/10", RE.cat (strRE "star") (RE.opt (RE.lit 's'))]))

/-- Models `ACTION_PATTERNS["add_completed"]`. -/
def pat_add_completed : RE :=
  catList [verbAdd, wsP, titleGrp, wsP, toAsIn, wsP, optMy,
    strRE "completed", optListSfx, ratingSuffix]

/-- Models `ACTION_PATTERNS["add_watching"]`. -/
def pat_add_watching : RE :=
  catList [verbAdd, wsP, titleGrp, wsP, toAsIn, wsP, optMy,
    altList (strRE "watching") [strRE "currently watching"], optListSfx]

/-- Models `ACTION_PATTERNS["add_planned"]`. -/
def pat_add_planned : RE :=
  catList [verbAdd, wsP, titleGrp, wsP, toAsIn, wsP, optMy,
    altList (catList [strRE "plan", RE.opt (strRE "ned"),
        RE.opt (catList [wsP, strRE "to", wsP, strRE "watch"])])
      [strRE "watchlist", strRE "ptw"],
    optListSfx]

/-- Models `ACTION_PATTERNS["add_dropped"]`. -/
def pat_add_dropped : RE :=
  catList [verbAdd, wsP, titleGrp, wsP, toAsIn, wsP, optMy,
    strRE "dropped", optListSfx]

/-- Models `ACTION_PATTERNS["add_on_hold"]`. -/
def pat_add_on_hold : RE :=
  catList [verbAdd, wsP, titleGrp, wsP, toAsIn, wsP, optMy,
    altList (catList [strRE "on",
        RE.opt (RE.cls (fun c => c.isWhitespace || c = '_' || c = '-')),
        strRE "hold"])
      [strRE "paused"],
    optListSfx]

/-- Models `ACTION_PATTERNS["rate_anime"]`. -/
def pat_rate_anime : RE :=
  catList [verbRate, wsP, titleGrp, wsP, RE.opt (RE.cat (strRE "a") wsP),
    numGrp 2, rateTail]

/-- Models `ACTION_PATTERNS["change_rating"]`. -/
def pat_change_rating : RE :=
  catList [altList (strRE "change") [strRE "update", strRE "set"], wsP,
    RE.opt (RE.cat (strRE "the") wsP), strRE "rating", wsP,
    RE.opt (RE.cat (strRE "of") wsP), titleGrp, wsP, strRE "to", wsP, numGrp 2]

/-- Models `ACTION_PATTERNS["remove_anime"]`. -/
def pat_remove_anime : RE :=
  catList [altList (strRE "remove") [strRE "delete", strRE "take off"], wsP,
    titleGrp, wsP, strRE "from", wsP, optMy,
    altList (strRE "list") [strRE "watchlist", strRE "anime list"]]

/-- Models `MANGA_ACTION_PATTERNS["add_manga_completed"]`. -/
def pat_add_manga_completed : RE :=
  catList [verbAdd, wsP, titleGrp, wsP, optMangaWs, toAsIn, wsP, optMy,
    optMangaWs, strRE "completed", optListSfx, ratingSuffix]

/-- Models `MANGA_ACTION_PATTERNS["add_manga_reading"]`. -/
def pat_add_manga_reading : RE :=
  catList [verbAdd, wsP, titleGrp, wsP, optMangaWs, toAsIn, wsP, optMy,
    optMangaWs, altList (strRE "reading") [strRE "currently reading"], optListSfx]

/-- Models `MANGA_ACTION_PATTERNS["add_manga_planned"]`. -/
def pat_add_manga_planned : RE :=
  catList [verbAdd, wsP, titleGrp, wsP, optMangaWs, toAsIn, wsP, optMy,
    optMangaWs,
    altList (catList [strRE "plan", RE.opt (strRE "ned"),
        RE.opt (catList [wsP, strRE "to", wsP, strRE "read"])])
      [strRE "ptr"],
    optListSfx]

/-- Models `MANGA_ACTION_PATTERNS["rate_manga"]`. -/
def pat_rate_manga : RE :=
  catList [verbRate, wsP, titleGrp, wsP, optMangaWs,
    RE.opt (RE.cat (strRE "a") wsP), numGrp 2, rateTail]

/-- Models `MANGA_ACTION_PATTERNS["remove_manga"]`. -/
def pat_remove_manga : RE :=
  catList [altList (strRE "remove") [strRE "delete", strRE "take off"], wsP,
    titleGrp, wsP, optMangaWs, strRE "from", wsP, optMy, optMangaWs,
    altList (strRE "list") [strRE "reading list"]]

/-! ## Action execution — `backend/routes/chat.py` and `backend/data/database.py` -/

/-- Models `AnimeStatus` from `database.py` (shared by anime and manga entries). -/
inductive AnimeStatus where
  | watching
  | completed
  | planned
  | dropped
  | on_hold
deriving DecidableEq

/-- A `UserAnime` row, restricted to the columns the chat executor reads or
writes (`id`, `is_favorite` and `added_at` are never touched by it).
`updated_at` is `none` until the executor first sets it (the column default
is server-assigned). -/
structure UserAnime where
  user_id : ℕ
  anime_id : ℕ
  status : AnimeStatus
  rating : Option ℚ := none
  updated_at : Option ℕ := none
deriving DecidableEq

/-- A `UserManga` row, same restriction. -/
structure UserManga where
  user_id : ℕ
  manga_id : ℕ
  status : AnimeStatus
  rating : Option ℚ := none
  updated_at : Option ℕ := none
deriving DecidableEq

/-- The dict `find_anime_by_title` / `find_manga_by_title` return on success
(`chat.py` lines 78-91): resolved id, display title, catalog score, genres. -/
structure FoundTitle where
  mal_id : ℕ
  title : String
  score : Option ℚ
  genres : String
deriving DecidableEq

/-- Models `ActionResult` (`chat.py` lines 29-35). -/
structure ActionResult where
  action : String
  success : Bool
  message : String
  anime_id : Option ℕ := none
  anime_title : Option String := none
deriving DecidableEq

/-- The anime action types of `ACTION_PATTERNS`, in dict (insertion) order. -/
inductive AnimeActionType where
  | add_completed
  | add_watching
  | add_planned
  | add_dropped
  | add_on_hold
  | rate_anime
  | change_rating
  | remove_anime
deriving DecidableEq

/-- The manga action types of `MANGA_ACTION_PATTERNS`, in dict order. -/
inductive MangaActionType where
  | add_manga_completed
  | add_manga_reading
  | add_manga_planned
  | rate_manga
  | remove_manga
deriving DecidableEq

/-- ASCII lowering, as `message.lower()` acts on the utterances under proof. -/
def charLower (c : Char) : Char :=
  if c.toNat ≥ 65 ∧ c.toNat ≤ 90 then Char.ofNat (c.toNat + 32) else c

/-- Models `message.lower()`. -/
def pyLower (s : String) : String := String.mk (s.data.map charLower)

/-- Python `str.strip()` (whitespace from both ends). -/
def pyStrip (s : String) : String :=
  String.mk (((s.data.dropWhile Char.isWhitespace).reverse.dropWhile
    Char.isWhitespace).reverse)

/-- Value of a digit character. -/
def digitsVal (cs : List Char) : ℕ :=
  cs.foldl (fun a c => 10 * a + (c.toNat - 48)) 0

/-- Models `float(s)` on a string matched by `\d+(?:\.\d+)?`. -/
def parsePyFloat (cs : List Char) : ℚ :=
  let intPart := cs.takeWhile (fun c => c.isDigit)
  let rest := cs.dropWhile (fun c => c.isDigit)
  match rest with
  | '.' :: frac => (digitsVal intPart : ℚ) + (digitsVal frac : ℚ) / ((10 : ℚ) ^ frac.length)
  | _ => (digitsVal intPart : ℚ)

/-- Python `f"{x}"` for the floats the executor prints (integral floats render
with a trailing `.0`; non-integral captured ratings are finite decimals). -/
def pyFloatRepr (q : ℚ) : String :=
  if q.den = 1 then toString q.num ++ ".0" else toString q

/-- Models `min(10, max(1, rating))`. -/
def clampRating (q : ℚ) : ℚ := min 10 (max 1 q)

/-- Python truthiness of an optional float (`None` and `0.0` are falsy), as
used by `if rating:`. -/
def pyTruthy (o : Option ℚ) : Bool :=
  match o with
  | none => false
  | some q => decide (q ≠ 0)

/-- Models `match.group(1).strip()` — the captured title reference. -/
def capTitle (caps : Caps) : String := pyStrip (String.mk ((getCap caps 1).getD []))

/-- Models `float(match.group(2))` for patterns whose group 2 always participates. -/
def capRating (caps : Caps) : ℚ := parsePyFloat ((getCap caps 2).getD [])

/-- Models `float(match.group(2)) if match.group(2) else None` (the group text is
non-empty whenever it participates, so string truthiness is participation). -/
def capRatingOpt (caps : Caps) : Option ℚ := (getCap caps 2).map parsePyFloat

/-- Models `db.query(UserAnime).filter(user_id == u, anime_id == aid).first()`. -/
def findEntry (db : List UserAnime) (u aid : ℕ) : Option UserAnime :=
  db.find? (fun r => r.user_id == u && r.anime_id == aid)

/-- In-place SQLAlchemy mutation of the row `first()` returned: rewrite the
first matching row. -/
def updateEntry (db : List UserAnime) (u aid : ℕ) (f : UserAnime → UserAnime) :
    List UserAnime :=
  match db with
  | [] => []
  | r :: rest =>
    if r.user_id == u && r.anime_id == aid then f r :: rest
    else r :: updateEntry rest u aid f

/-- Models `db.delete(existing)`: remove the row `first()` returned. -/
def deleteEntry (db : List UserAnime) (u aid : ℕ) : List UserAnime :=
  match db with
  | [] => []
  | r :: rest =>
    if r.user_id == u && r.anime_id == aid then rest
    else r :: deleteEntry rest u aid

/-- Models `db.query(UserManga)...first()`. -/
def findMEntry (db : List UserManga) (u mid : ℕ) : Option UserManga :=
  db.find? (fun r => r.user_id == u && r.manga_id == mid)

/-- Rewrite the first matching manga row. -/
def updateMEntry (db : List UserManga) (u mid : ℕ) (f : UserManga → UserManga) :
    List UserManga :=
  match db with
  | [] => []
  | r :: rest =>
    if r.user_id == u && r.manga_id == mid then f r :: rest
    else r :: updateMEntry rest u mid f

/-- Remove the first matching manga row. -/
def deleteMEntry (db : List UserManga) (u mid : ℕ) : List UserManga :=
  match db with
  | [] => []
  | r :: rest =>
    if r.user_id == u && r.manga_id == mid then rest
    else r :: deleteMEntry rest u mid

/-- Models `execute_action` (`chat.py` lines 126-340), parameterized by the title
resolver `find_anime_by_title` (it consults the external vector store) and by
`datetime.utcnow()`.  Every branch commits before returning; `add_dropped`
has no branch in the source and falls through to `return None`. -/
def execute_action (find_anime : String → Option FoundTitle) (now : ℕ)
    (user : ℕ) (db : List UserAnime) (t : AnimeActionType) (caps : Caps) :
    Option ActionResult × List UserAnime :=
  match t with
  | AnimeActionType.add_completed =>
    let title := capTitle caps
    let rating := capRatingOpt caps
    match find_anime title with
    | none => (some { action := "add_completed", success := false,
                      message := "Couldn\u0027t find anime: " ++ title }, db)
    | some anime =>
      let db' :=
        match findEntry db user anime.mal_id with
        | some _ =>
          updateEntry db user anime.mal_id (fun r =>
            { r with status := AnimeStatus.completed,
                     rating := if pyTruthy rating then
                         some (clampRating (rating.getD 0))
                       else r.rating,
                     updated_at := some now })
        | none =>
          db ++ [{ user_id := user, anime_id := anime.mal_id,
                   status := AnimeStatus.completed,
                   rating := if pyTruthy rating then
                       some (clampRating (rating.getD 0))
                     else none }]
      let rating_text := if pyTruthy rating then
          " with rating " ++ pyFloatRepr (rating.getD 0) ++ "/10"
        else ""
      (some { action := "add_completed", success := true,
              message := "Added **" ++ anime.title ++ "** to completed" ++ rating_text,
              anime_id := some anime.mal_id, anime_title := some anime.title }, db')
  | AnimeActionType.add_watching =>
    let title := capTitle caps
    match find_anime title with
    | none => (some { action := "add_watching", success := false,
                      message := "Couldn\u0027t find anime: " ++ title }, db)
    | some anime =>
      let db' :=
        match findEntry db user anime.mal_id with
        | some _ =>
          updateEntry db user anime.mal_id (fun r =>
            { r with status := AnimeStatus.watching, updated_at := some now })
        | none =>
          db ++ [{ user_id := user, anime_id := anime.mal_id,
                   status := AnimeStatus.watching }]
      (some { action := "add_watching", success := true,
              message := "Added **" ++ anime.title ++ "** to watching",
              anime_id := some anime.mal_id, anime_title := some anime.title }, db')
  | AnimeActionType.add_planned =>
    let title := capTitle caps
    match find_anime title with
    | none => (some { action := "add_planned", success := false,
                      message := "Couldn\u0027t find anime: " ++ title }, db)
    | some anime =>
      let db' :=
        match findEntry db user anime.mal_id with
        | some _ =>
          updateEntry db user anime.mal_id (fun r =>
            { r with status := AnimeStatus.planned, updated_at := some now })
        | none =>
          db ++ [{ user_id := user, anime_id := anime.mal_id,
                   status := AnimeStatus.planned }]
      (some { action := "add_planned", success := true,
              message := "Added **" ++ anime.title ++ "** to plan to watch",
              anime_id := some anime.mal_id, anime_title := some anime.title }, db')
  | AnimeActionType.rate_anime =>
    let title := capTitle caps
    match find_anime title with
    | none => (some { action := "rate_anime", success := false,
                      message := "Couldn\u0027t find anime: " ++ title }, db)
    | some anime =>
      let rating := clampRating (capRating caps)
      let db' :=
        match findEntry db user anime.mal_id with
        | some _ =>
          updateEntry db user anime.mal_id (fun r =>
            { r with rating := some rating, updated_at := some now })
        | none =>
          db ++ [{ user_id := user, anime_id := anime.mal_id,
                   status := AnimeStatus.completed, rating := some rating }]
      (some { action := "rate_anime", success := true,
              message := "Rated **" ++ anime.title ++ "** "
                ++ pyFloatRepr rating ++ "/10",
              anime_id := some anime.mal_id, anime_title := some anime.title }, db')
  | AnimeActionType.remove_anime =>
    let title := capTitle caps
    match find_anime title with
    | none => (some { action := "remove_anime", success := false,
                      message := "Couldn\u0027t find anime: " ++ title }, db)
    | some anime =>
      match findEntry db user anime.mal_id with
      | some _ =>
        (some { action := "remove_anime", success := true,
                message := "Removed **" ++ anime.title ++ "** from your list",
                anime_id := some anime.mal_id, anime_title := some anime.title },
         deleteEntry db user anime.mal_id)
      | none =>
        (some { action := "remove_anime", success := false,
                message := anime.title ++ " wasn\u0027t in your list" }, db)
  | AnimeActionType.add_on_hold =>
    let title := capTitle caps
    match find_anime title with
    | none => (some { action := "add_on_hold", success := false,
                      message := "Couldn\u0027t find anime: " ++ title }, db)
    | some anime =>
      let db' :=
        match findEntry db user anime.mal_id with
        | some _ =>
          updateEntry db user anime.mal_id (fun r =>
            { r with status := AnimeStatus.on_hold, updated_at := some now })
        | none =>
          db ++ [{ user_id := user, anime_id := anime.mal_id,
                   status := AnimeStatus.on_hold }]
      (some { action := "add_on_hold", success := true,
              message := "Added **" ++ anime.title ++ "** to on hold",
              anime_id := some anime.mal_id, anime_title := some anime.title }, db')
  | AnimeActionType.change_rating =>
    let title := capTitle caps
    match find_anime title with
    | none => (some { action := "change_rating", success := false,
                      message := "Couldn\u0027t find anime: " ++ title }, db)
    | some anime =>
      let rating := clampRating (capRating caps)
      match findEntry db user anime.mal_id with
      | some _ =>
        (some { action := "change_rating", success := true,
                message := "Changed rating of **" ++ anime.title ++ "** to "
                  ++ pyFloatRepr rating ++ "/10",
                anime_id := some anime.mal_id, anime_title := some anime.title },
         updateEntry db user anime.mal_id (fun r =>
           { r with rating := some rating, updated_at := some now }))
      | none =>
        (some { action := "change_rating", success := false,
                message := anime.title ++ " is not in your list yet" }, db)
  | AnimeActionType.add_dropped => (none, db)

/-- Models `execute_manga_action` (`chat.py` lines 343-471), parameterized by
`find_manga_by_title`.  All five manga action types return a result. -/
def execute_manga_action (find_manga : String → Option FoundTitle) (now : ℕ)
    (user : ℕ) (db : List UserManga) (t : MangaActionType) (caps : Caps) :
    Option ActionResult × List UserManga :=
  match t with
  | MangaActionType.add_manga_completed =>
    let title := capTitle caps
    let rating := capRatingOpt caps
    match find_manga title with
    | none => (some { action := "add_manga_completed", success := false,
                      message := "Couldn\u0027t find manga: " ++ title }, db)
    | some manga =>
      let db' :=
        match findMEntry db user manga.mal_id with
        | some _ =>
          updateMEntry db user manga.mal_id (fun r =>
            { r with status := AnimeStatus.completed,
                     rating := if pyTruthy rating then
                         some (clampRating (rating.getD 0))
                       else r.rating,
                     updated_at := some now })
        | none =>
          db ++ [{ user_id := user, manga_id := manga.mal_id,
                   status := AnimeStatus.completed,
                   rating := if pyTruthy rating then
                       some (clampRating (rating.getD 0))
                     else none }]
      let rating_text := if pyTruthy rating then
          " with rating " ++ pyFloatRepr (rating.getD 0) ++ "/10"
        else ""
      (some { action := "add_manga_completed", success := true,
              message := "Added manga **" ++ manga.title ++ "** to completed"
                ++ rating_text,
              anime_id := some manga.mal_id, anime_title := some manga.title }, db')
  | MangaActionType.add_manga_reading =>
    let title := capTitle caps
    match find_manga title with
    | none => (some { action := "add_manga_reading", success := false,
                      message := "Couldn\u0027t find manga: " ++ title }, db)
    | some manga =>
      let db' :=
        match findMEntry db user manga.mal_id with
        | some _ =>
          updateMEntry db user manga.mal_id (fun r =>
            { r with status := AnimeStatus.watching, updated_at := some now })
        | none =>
          db ++ [{ user_id := user, manga_id := manga.mal_id,
                   status := AnimeStatus.watching }]
      (some { action := "add_manga_reading", success := true,
              message := "Added manga **" ++ manga.title ++ "** to reading",
              anime_id := some manga.mal_id, anime_title := some manga.title }, db')
  | MangaActionType.add_manga_planned =>
    let title := capTitle caps
    match find_manga title with
    | none => (some { action := "add_manga_planned", success := false,
                      message := "Couldn\u0027t find manga: " ++ title }, db)
    | some manga =>
      let db' :=
        match findMEntry db user manga.mal_id with
        | some _ =>
          updateMEntry db user manga.mal_id (fun r =>
            { r with status := AnimeStatus.planned, updated_at := some now })
        | none =>
          db ++ [{ user_id := user, manga_id := manga.mal_id,
                   status := AnimeStatus.planned }]
      (some { action := "add_manga_planned", success := true,
              message := "Added manga **" ++ manga.title ++ "** to plan to read",
              anime_id := some manga.mal_id, anime_title := some manga.title }, db')
  | MangaActionType.rate_manga =>
    let title := capTitle caps
    match find_manga title with
    | none => (some { action := "rate_manga", success := false,
                      message := "Couldn\u0027t find manga: " ++ title }, db)
    | some manga =>
      let rating := clampRating (capRating caps)
      let db' :=
        match findMEntry db user manga.mal_id with
        | some _ =>
          updateMEntry db user manga.mal_id (fun r =>
            { r with rating := some rating, updated_at := some now })
        | none =>
          db ++ [{ user_id := user, manga_id := manga.mal_id,
                   status := AnimeStatus.completed, rating := some rating }]
      (some { action := "rate_manga", success := true,
              message := "Rated manga **" ++ manga.title ++ "** "
                ++ pyFloatRepr rating ++ "/10",
              anime_id := some manga.mal_id, anime_title := some manga.title }, db')
  | MangaActionType.remove_manga =>
    let title := capTitle caps
    match find_manga title with
    | none => (some { action := "remove_manga", success := false,
                      message := "Couldn\u0027t find manga: " ++ title }, db)
    | some manga =>
      match findMEntry db user manga.mal_id with
      | some _ =>
        (some { action := "remove_manga", success := true,
                message := "Removed manga **" ++ manga.title ++ "** from your list",
                anime_id := some manga.mal_id, anime_title := some manga.title },
         deleteMEntry db user manga.mal_id)
      | none =>
        (some { action := "remove_manga", success := false,
                message := manga.title ++ " wasn\u0027t in your list" }, db)

/-- Models `MANGA_ACTION_PATTERNS`, in dict order. -/
def MANGA_ACTION_PATTERNS : List (MangaActionType × RE) :=
  [(MangaActionType.add_manga_completed, pat_add_manga_completed),
   (MangaActionType.add_manga_reading, pat_add_manga_reading),
   (MangaActionType.add_manga_planned, pat_add_manga_planned),
   (MangaActionType.rate_manga, pat_rate_manga),
   (MangaActionType.remove_manga, pat_remove_manga)]

/-- Models `ACTION_PATTERNS`, in dict order. -/
def ACTION_PATTERNS : List (AnimeActionType × RE) :=
  [(AnimeActionType.add_completed, pat_add_completed),
   (AnimeActionType.add_watching, pat_add_watching),
   (AnimeActionType.add_planned, pat_add_planned),
   (AnimeActionType.add_dropped, pat_add_dropped),
   (AnimeActionType.add_on_hold, pat_add_on_hold),
   (AnimeActionType.rate_anime, pat_rate_anime),
   (AnimeActionType.change_rating, pat_change_rating),
   (AnimeActionType.remove_anime, pat_remove_anime)]

/-- The manga half of the detection loop (`chat.py` lines 482-489): first
manga pattern that matches and executes to a non-`None` result returns it
immediately. -/
def runMangaActions (find_manga : String → Option FoundTitle) (now u : ℕ)
    (ml : List Char) :
    List (MangaActionType × RE) → List UserManga →
      Option (ActionResult × List UserManga)
  | [], _ => none
  | (t, p) :: rest, db =>
    match reSearch regexFuel p ml with
    | some caps =>
      match execute_manga_action find_manga now u db t caps with
      | (some r, db') => some (r, db')
      | (none, db') => runMangaActions find_manga now u ml rest db'
    | none => runMangaActions find_manga now u ml rest db

/-- The anime half of the detection loop (`chat.py` lines 491-497): every
matching pattern executes, results accumulate in pattern order. -/
def runAnimeActions (find_anime : String → Option FoundTitle) (now u : ℕ)
    (ml : List Char) :
    List (AnimeActionType × RE) → List UserAnime →
      List ActionResult × List UserAnime
  | [], db => ([], db)
  | (t, p) :: rest, db =>
    match reSearch regexFuel p ml with
    | some caps =>
      match execute_action find_anime now u db t caps with
      | (some r, db') =>
        let next := runAnimeActions find_anime now u ml rest db'
        (r :: next.1, next.2)
      | (none, db') => runAnimeActions find_anime now u ml rest db'
    | none => runAnimeActions find_anime now u ml rest db

/-- Models `detect_and_execute_actions` (`chat.py` lines 474-499): anonymous turns
do nothing; otherwise the lowercased message runs through the manga rules
first, a manga hit short-circuits with a single result, and only failing
that are the anime rules evaluated. -/
def detect_and_execute_actions (find_anime find_manga : String → Option FoundTitle)
    (now : ℕ) (message : String) (user : Option ℕ)
    (dbA : List UserAnime) (dbM : List UserManga) :
    List ActionResult × List UserAnime × List UserManga :=
  match user with
  | none => ([], dbA, dbM)
  | some u =>
    let ml := (pyLower message).data
    match runMangaActions find_manga now u ml MANGA_ACTION_PATTERNS dbM with
    | some (r, dbM') => ([r], dbA, dbM')
    | none =>
      let res := runAnimeActions find_anime now u ml ACTION_PATTERNS dbA
      (res.1, res.2, dbM)

/-- A concrete manga resolver for witnesses: the store resolves "berserk". -/
def berserkOracle : String → Option FoundTitle :=
  fun t => if t = "berserk" then some ⟨2, "Berserk", some (19/2), "Action, Adventure"⟩
    else none

/-- A concrete anime resolver for witnesses: the store resolves "naruto". -/
def narutoOracle : String → Option FoundTitle :=
  fun t => if t = "naruto" then some ⟨20, "Naruto", some 8, "Action"⟩ else none

/-- A resolver that finds nothing (used where resolution must not matter). -/
def noTitle : String → Option FoundTitle := fun _ => none

/-! ## Theorems -/

lemma normalized_pop_lower (pop : Option ℤ) : 1/10 ≤ normalized_pop pop := by
  rcases pop with _ | p
  · norm_num [normalized_pop]
  · simp only [normalized_pop]
    split_ifs with hpos hle
    · have : (p : ℚ) ≤ 1000 := by exact_mod_cast hle
      linarith
    · exact le_max_left _ _
    · norm_num

lemma normalized_pop_upper (pop : Option ℤ) : normalized_pop pop ≤ 1999/2000 := by
  rcases pop with _ | p
  · norm_num [normalized_pop]
  · simp only [normalized_pop]
    split_ifs with hpos hle
    · have h1 : (1 : ℚ) ≤ (p : ℚ) := by exact_mod_cast hpos
      linarith
    · have h1 : (1000 : ℚ) < (p : ℚ) := by
        push_neg at hle
        exact_mod_cast hle
      apply max_le
      · norm_num
      · linarith
    · norm_num

lemma round4_nonneg {x : ℚ} (h : 0 ≤ x) : 0 ≤ round4 x := by
  unfold round4
  have h0 : (0 : ℤ) ≤ round (10000 * x) := by
    rw [round_eq]
    apply Int.le_floor.mpr
    push_cast
    linarith
  positivity

lemma round4_le_one {x : ℚ} (h : x ≤ 19999/20000) : round4 x ≤ 1 := by
  unfold round4
  have h1 : round (10000 * x) ≤ (10000 : ℤ) := by
    rw [round_eq]
    have hlt : ⌊(10000 : ℚ) * x + 1/2⌋ < (10001 : ℤ) := by
      apply Int.floor_lt.mpr
      push_cast
      linarith
    omega
  rw [div_le_one (by norm_num)]
  exact_mod_cast h1

/-- C1: with the default weights, `calculate_combined_score` is the 4-decimal
rounding of `0.6·similarity + 0.3·(score/10) + 0.1·normalizedPopularity`, and
for similarity in `[0,1]` and score in `[0,10]` the result lies in `[0,1]`,
whatever the popularity (including absent). -/
theorem calculate_combined_score_spec (s sc : ℚ) (pop : Option ℤ)
    (hs0 : 0 ≤ s) (hs1 : s ≤ 1) (hc0 : 0 ≤ sc) (hc1 : sc ≤ 10) :
    calculate_combined_score s sc pop
      = round4 (6/10 * s + 3/10 * (sc / 10) + 1/10 * normalized_pop pop)
    ∧ 0 ≤ calculate_combined_score s sc pop
    ∧ calculate_combined_score s sc pop ≤ 1 := by
  have hform : calculate_combined_score s sc pop
      = round4 (6/10 * s + 3/10 * (sc / 10) + 1/10 * normalized_pop pop) := by
    unfold calculate_combined_score
    by_cases h : sc = 0 <;> simp [h]
  have hnp1 := normalized_pop_lower pop
  have hnp2 := normalized_pop_upper pop
  refine ⟨hform, ?_, ?_⟩
  · rw [hform]
    apply round4_nonneg
    linarith
  · rw [hform]
    apply round4_le_one
    linarith

/-- Witness for `calculate_combined_score_spec` at concrete inputs. -/
theorem calculate_combined_score_spec_witness :
    0 ≤ calculate_combined_score (1/2) 8 (some 3)
    ∧ calculate_combined_score (1/2) 8 (some 3) ≤ 1 :=
  ⟨(calculate_combined_score_spec (1/2) 8 (some 3) (by norm_num) (by norm_num)
      (by norm_num) (by norm_num)).2.1,
   (calculate_combined_score_spec (1/2) 8 (some 3) (by norm_num) (by norm_num)
      (by norm_num) (by norm_num)).2.2⟩

/-- C7: `normalizedPopularity` defaults to `0.5` for an absent or non-positive
rank; on the positive ranks up to 1000 it is `1 - popularity/2000` and
monotonically non-increasing; beyond 1000 it is
`max(0.1, 0.5 - (popularity-1000)/20000)`, hence never below the `0.1` floor. -/
theorem normalized_pop_spec :
    (normalized_pop none = 1/2 ∧ ∀ p : ℤ, p ≤ 0 → normalized_pop (some p) = 1/2)
    ∧ (∀ p1 p2 : ℤ, 0 < p1 → p1 < p2 → p2 ≤ 1000 →
        normalized_pop (some p1) = 1 - (p1 : ℚ) / 2000
        ∧ normalized_pop (some p2) = 1 - (p2 : ℚ) / 2000
        ∧ normalized_pop (some p2) ≤ normalized_pop (some p1))
    ∧ (∀ p : ℤ, 1000 < p →
        normalized_pop (some p) = max (1/10) (1/2 - ((p : ℚ) - 1000) / 20000)
        ∧ 1/10 ≤ normalized_pop (some p)) := by
  refine ⟨⟨rfl, fun p hp => ?_⟩, fun p1 p2 h1 h12 h2 => ?_, fun p hp => ?_⟩
  · simp only [normalized_pop]
    rw [if_neg (by omega)]
  · have e1 : normalized_pop (some p1) = 1 - (p1 : ℚ) / 2000 := by
      simp only [normalized_pop]
      rw [if_pos h1, if_pos (by omega)]
    have e2 : normalized_pop (some p2) = 1 - (p2 : ℚ) / 2000 := by
      simp only [normalized_pop]
      rw [if_pos (by omega), if_pos h2]
    refine ⟨e1, e2, ?_⟩
    rw [e1, e2]
    have : (p1 : ℚ) ≤ (p2 : ℚ) := by exact_mod_cast le_of_lt h12
    linarith
  · have e : normalized_pop (some p) = max (1/10) (1/2 - ((p : ℚ) - 1000) / 20000) := by
      simp only [normalized_pop]
      rw [if_pos (by omega), if_neg (by omega)]
    exact ⟨e, e ▸ le_max_left _ _⟩

/-- Witness for `normalized_pop_spec` at concrete ranks. -/
theorem normalized_pop_spec_witness :
    normalized_pop (some 600) ≤ normalized_pop (some 5)
    ∧ 1/10 ≤ normalized_pop (some 99999) :=
  ⟨(normalized_pop_spec.2.1 5 600 (by norm_num) (by norm_num) (by norm_num)).2.2,
   (normalized_pop_spec.2.2 99999 (by norm_num)).2⟩

lemma rerank_le_trans (a b c : RItem × ℚ) :
    (fun a b : RItem × ℚ => decide (b.2 ≤ a.2)) a b →
    (fun a b : RItem × ℚ => decide (b.2 ≤ a.2)) b c →
    (fun a b : RItem × ℚ => decide (b.2 ≤ a.2)) a c := by
  simp only [decide_eq_true_eq]
  exact fun h1 h2 => le_trans h2 h1

lemma rerank_le_total (a b : RItem × ℚ) :
    ((fun a b : RItem × ℚ => decide (b.2 ≤ a.2)) a b
      || (fun a b : RItem × ℚ => decide (b.2 ≤ a.2)) b a) = true := by
  simp only [Bool.or_eq_true, decide_eq_true_eq]
  exact le_total b.2 a.2

/-- Elements of the sorted list all come from the scored list. -/
lemma rerank_mem {results : List RItem} {limit : ℕ} {x : RItem × ℚ}
    (hx : x ∈ rerank_results results limit) : x.2 = combined_of x.1 := by
  unfold rerank_results at hx
  have hx' := List.mem_of_mem_take hx
  rw [List.mem_mergeSort] at hx'
  obtain ⟨r, _, rfl⟩ := List.mem_map.mp hx'
  rfl

/-- A stable sort leaves each equal-score class exactly in input order. -/
lemma mergeSort_filter_key (scored : List (RItem × ℚ)) (c : ℚ) :
    (scored.mergeSort (fun a b => decide (b.2 ≤ a.2))).filter
        (fun x => decide (x.2 = c))
      = scored.filter (fun x => decide (x.2 = c)) := by
  set le := fun a b : RItem × ℚ => decide (b.2 ≤ a.2) with hle
  set p := fun x : RItem × ℚ => decide (x.2 = c) with hp
  have hpair : (scored.filter p).Pairwise (fun a b => le a b = true) := by
    apply List.pairwise_of_forall_mem_list
    intro a ha b hb
    have ha' : a.2 = c := by simpa [hp] using List.of_mem_filter ha
    have hb' : b.2 = c := by simpa [hp] using List.of_mem_filter hb
    simp [hle, ha', hb']
  have hsub : List.Sublist (scored.filter p) (scored.mergeSort le) :=
    List.sublist_mergeSort rerank_le_trans rerank_le_total hpair
      (List.filter_sublist scored)
  have hsub2 : List.Sublist (scored.filter p) ((scored.mergeSort le).filter p) := by
    have := hsub.filter p
    rwa [List.filter_filter, (by funext x; simp : (fun x => p x && p x) = p)] at this
  have hperm : ((scored.mergeSort le).filter p).length = (scored.filter p).length :=
    ((List.mergeSort_perm scored le).filter p).length_eq
  exact (hsub2.eq_of_length hperm.symm).symm

/-- C6: `rerank_results` attaches to every returned item its combined score,
returns the items sorted in descending order of that score, never returns
more than `limit` items, and never reorders two items of equal combined
score (each equal-score class of the output is a sublist — in particular in
the original order — of the scored input). -/
theorem rerank_results_spec (results : List RItem) (limit : ℕ) :
    (∀ x ∈ rerank_results results limit, x.2 = combined_of x.1)
    ∧ (rerank_results results limit).Pairwise (fun a b => b.2 ≤ a.2)
    ∧ (rerank_results results limit).length ≤ limit
    ∧ (∀ c : ℚ, List.Sublist
        ((rerank_results results limit).filter (fun x => decide (x.2 = c)))
        ((results.map (fun r => (r, combined_of r))).filter
          (fun x => decide (x.2 = c)))) := by
  refine ⟨fun x hx => rerank_mem hx, ?_, ?_, ?_⟩
  · have hs : ((results.map (fun r => (r, combined_of r))).mergeSort
        (fun a b => decide (b.2 ≤ a.2))).Pairwise
          (fun a b => (fun a b : RItem × ℚ => decide (b.2 ≤ a.2)) a b = true) :=
      List.sorted_mergeSort rerank_le_trans rerank_le_total _
    have := hs.sublist (List.take_sublist limit _)
    unfold rerank_results
    exact this.imp (by simp)
  · unfold rerank_results
    simp only []
    exact List.length_take_le limit _
  · intro c
    unfold rerank_results
    have h1 := (List.take_sublist limit
      ((results.map (fun r => (r, combined_of r))).mergeSort
        (fun a b => decide (b.2 ≤ a.2)))).filter (fun x => decide (x.2 = c))
    rw [mergeSort_filter_key] at h1
    exact h1

/-- Witness for `rerank_results_spec` on a concrete one-element list. -/
theorem rerank_results_spec_witness :
    ((⟨some (1/2), none⟩ : RItem), combined_of ⟨some (1/2), none⟩).2
      = combined_of (⟨some (1/2), none⟩ : RItem) :=
  (rerank_results_spec [⟨some (1/2), none⟩] 1).1 _
    (by simp [rerank_results])

/-- C9: `search_similar` queries with `k+1` on the record's own text, removes
the seed id, returns at most `k` hits, and returns `[]` (not an error) when
the id is absent from the index. -/
theorem search_similar_spec (c : Collection) (i k : ℕ) :
    (c.getDocument i = none → search_similar c i k = [])
    ∧ (search_similar c i k).length ≤ k
    ∧ (∀ h ∈ search_similar c i k, h.mal_id ≠ i)
    ∧ (∀ doc, c.getDocument i = some doc →
        search_similar c i k
          = (((c.query doc (k + 1)).filter (fun h => h.mal_id ≠ i)).map
              formatHit).take k) := by
  refine ⟨?_, ?_, ?_, ?_⟩
  · intro h
    simp [search_similar, h]
  · unfold search_similar
    rcases hdoc : c.getDocument i with _ | doc
    · simp
    · exact List.length_take_le k _
  · intro h hmem
    unfold search_similar at hmem
    rcases hdoc : c.getDocument i with _ | doc <;> rw [hdoc] at hmem
    · simp at hmem
    · have hmem' := List.mem_of_mem_take hmem
      obtain ⟨q, hq, rfl⟩ := List.mem_map.mp hmem'
      have := List.of_mem_filter hq
      simpa [formatHit] using this
  · intro doc hdoc
    simp [search_similar, hdoc]

/-- Witness for `search_similar_spec` on a two-hit concrete collection. -/
theorem search_similar_spec_witness :
    search_similar ⟨fun n => if n = 1 then some "seed doc" else none,
        fun _ _ => [⟨1, [], "seed doc", 0⟩, ⟨2, [], "other", 1/4⟩]⟩ 3 5 = []
    ∧ (∀ h ∈ search_similar ⟨fun n => if n = 1 then some "seed doc" else none,
        fun _ _ => [⟨1, [], "seed doc", 0⟩, ⟨2, [], "other", 1/4⟩]⟩ 1 5,
        h.mal_id ≠ 1) :=
  ⟨(search_similar_spec _ 3 5).1 (by norm_num),
   (search_similar_spec _ 1 5).2.2.1⟩

/-- C8 counterexample: a *query* exception is not sticky.  With a store that
constructs fine but whose first query raises, the first call falls back
(log `(attempted, fallback) = (true, true)`), yet the second call attempts
the index again and succeeds there (`(true, false)`) — contradicting the
claim that any query exception latches the fallback for the rest of the
process lifetime. -/
theorem query_failure_not_sticky :
    semantic_search_run (R := ℕ) (Except.ok ()) []
        [Except.error "query boom", Except.ok []] initGlobals
      = ([(true, true), (true, false)], ⟨some (), none⟩) := by
  rfl

/-- C8 as amended: a *construction* exception is sticky — once
`_vector_store_error` is set, every later call uses the fallback without
touching the index, and a failing constructor latches that error on the very
first call, so no call of the process ever attempts the index.  A *query*
exception on a constructed store, by contrast, falls back only for that call:
the globals are unchanged and the next call attempts the index again. -/
theorem construction_failure_sticky {R : Type} :
    (∀ (construct : Except String Unit) (q : Except String (List R))
        (fb : List R) (g : SearchGlobals) (e : String),
        g.vector_store_error = some e →
        semantic_search_once construct q fb g = ((fb, false, true), g))
    ∧ (∀ (e : String) (qs : List (Except String (List R))) (fb : List R),
        ∀ log ∈ (semantic_search_run (Except.error e) fb qs initGlobals).1,
          log = (false, true))
    ∧ (∀ (fb rs : List R) (g : SearchGlobals) (msg : String),
        g.vector_store_error = none → g.vector_store = some () →
        semantic_search_once (R := R) (Except.ok ()) (Except.error msg) fb g
            = ((fb, true, true), g)
        ∧ semantic_search_once (R := R) (Except.ok ()) (Except.ok rs) fb g
            = ((rs, true, false), g)) := by
  have honce : ∀ (construct : Except String Unit) (q : Except String (List R))
      (fb : List R) (g : SearchGlobals) (e : String),
      g.vector_store_error = some e →
      semantic_search_once construct q fb g = ((fb, false, true), g) := by
    intro construct q fb g e he
    simp [semantic_search_once, get_vector_store_safe, he]
  refine ⟨honce, ?_, ?_⟩
  · intro e qs fb
    have herr : ∀ (qs' : List (Except String (List R))) (g : SearchGlobals)
        (e' : String), g.vector_store_error = some e' →
        ∀ log ∈ (semantic_search_run (Except.error e) fb qs' g).1,
          log = (false, true) := by
      intro qs'
      induction qs' with
      | nil => intro g e' _ log hlog; simp [semantic_search_run] at hlog
      | cons q rest ih =>
        intro g e' he' log hlog
        rw [semantic_search_run, honce _ q fb g e' he'] at hlog
        rcases List.mem_cons.mp hlog with h1 | h2
        · exact h1
        · exact ih g e' he' log h2
    cases qs with
    | nil => intro log hlog; simp [semantic_search_run] at hlog
    | cons q rest =>
      intro log hlog
      have hstep : semantic_search_once (Except.error e) q fb initGlobals
          = ((fb, false, true), ⟨none, some e⟩) := by
        simp [semantic_search_once, get_vector_store_safe, initGlobals]
      rw [semantic_search_run, hstep] at hlog
      rcases List.mem_cons.mp hlog with h1 | h2
      · exact h1
      · exact herr rest ⟨none, some e⟩ e rfl log h2
  · intro fb rs g msg he hs
    constructor <;>
      simp [semantic_search_once, get_vector_store_safe, he, hs]

/-- Witness for `construction_failure_sticky` on a concrete two-call run. -/
theorem construction_failure_sticky_witness :
    ∀ log ∈ (semantic_search_run (R := ℕ) (Except.error "no index") []
        [Except.ok [3], Except.error "later"] initGlobals).1,
      log = (false, true) :=
  fun log hlog =>
    construction_failure_sticky.2.1 "no index" [Except.ok [3], Except.error "later"]
      [] log hlog

lemma execute_manga_action_total (fm : String → Option FoundTitle) (now u : ℕ)
    (db : List UserManga) (t : MangaActionType) (caps : Caps) :
    (execute_manga_action fm now u db t caps).1.isSome := by
  cases t <;> simp only [execute_manga_action] <;>
    rcases hfm : fm (capTitle caps) with _ | manga <;> simp
  rcases hfe : findMEntry db u manga.mal_id with _ | e <;> simp [hfe]

lemma runMangaActions_isSome (fm : String → Option FoundTitle) (now u : ℕ)
    (ml : List Char) :
    ∀ (pats : List (MangaActionType × RE)) (db : List UserManga),
      (∃ tp ∈ pats, (reSearch regexFuel tp.2 ml).isSome) →
      (runMangaActions fm now u ml pats db).isSome := by
  intro pats
  induction pats with
  | nil =>
    intro db h
    obtain ⟨tp, htp, _⟩ := h
    simp at htp
  | cons hd rest ih =>
    intro db h
    obtain ⟨t, p⟩ := hd
    rw [runMangaActions]
    cases hs : reSearch regexFuel p ml with
    | some caps =>
      dsimp only
      have htot := execute_manga_action_total fm now u db t caps
      rcases hex : execute_manga_action fm now u db t caps with ⟨r, db'⟩
      rw [hex] at htot
      cases r with
      | some r' => simp
      | none => simp at htot
    | none =>
      obtain ⟨tp, htp, hsome⟩ := h
      rcases List.mem_cons.mp htp with rfl | hmem
      · rw [hs] at hsome
        simp at hsome
      · exact ih db ⟨tp, hmem, hsome⟩

/-- C2: the manga rules are tried in full before the anime rules and any
manga-rule match short-circuits anime evaluation — whenever some manga
pattern matches the lowercased utterance, the whole turn's output is the
single result of the manga loop and the anime list store is untouched.
Concretely, "add Berserk to my manga completed list with rating 9" produces
exactly one manga-completed action (no anime `add_completed` action, no
anime list change). -/
theorem detect_manga_before_anime :
    (∀ (fa fm : String → Option FoundTitle) (now : ℕ) (message : String)
        (u : ℕ) (dbA : List UserAnime) (dbM : List UserManga),
      (∃ tp ∈ MANGA_ACTION_PATTERNS,
          (reSearch regexFuel tp.2 (pyLower message).data).isSome) →
      ∃ r dbM',
        runMangaActions fm now u (pyLower message).data MANGA_ACTION_PATTERNS dbM
          = some (r, dbM')
        ∧ detect_and_execute_actions fa fm now message (some u) dbA dbM
          = ([r], dbA, dbM'))
    ∧ detect_and_execute_actions noTitle berserkOracle 0
        "add Berserk to my manga completed list with rating 9" (some 7) [] []
        = ([⟨"add_manga_completed", true,
             "Added manga **Berserk** to completed with rating 9.0/10",
             some 2, some "Berserk"⟩],
           [], [⟨7, 2, AnimeStatus.completed, some 9, none⟩]) := by
  constructor
  · intro fa fm now message u dbA dbM h
    have hs := runMangaActions_isSome fm now u (pyLower message).data
      MANGA_ACTION_PATTERNS dbM h
    rcases hr : runMangaActions fm now u (pyLower message).data
        MANGA_ACTION_PATTERNS dbM with _ | ⟨r, dbM'⟩
    · rw [hr] at hs
      simp at hs
    · refine ⟨r, dbM', rfl, ?_⟩
      show (match runMangaActions fm now u (pyLower message).data
            MANGA_ACTION_PATTERNS dbM with
        | some (r, dbM') => ([r], dbA, dbM')
        | none =>
          let res := runAnimeActions fa now u (pyLower message).data
            ACTION_PATTERNS dbA
          (res.1, res.2, dbM)) = ([r], dbA, dbM')
      rw [hr]
  · rfl

/-- Witness for the universally quantified half of `detect_manga_before_anime`,
discharged on the concrete Berserk utterance. -/
theorem detect_manga_before_anime_witness :
    ∃ r dbM',
      detect_and_execute_actions noTitle berserkOracle 0
          "add Berserk to my manga completed list with rating 9" (some 7) [] []
        = ([r], [], dbM') := by
  obtain ⟨r, dbM', _, h2⟩ := detect_manga_before_anime.1 noTitle berserkOracle 0
    "add Berserk to my manga completed list with rating 9" 7 [] []
    ⟨(MangaActionType.add_manga_completed, pat_add_manga_completed),
     List.Mem.head _, by decide⟩
  exact ⟨r, dbM', h2⟩

/-- C10: an anonymous chat turn detects nothing, executes nothing, and leaves
both list stores untouched. -/
theorem detect_no_user_no_action (fa fm : String → Option FoundTitle)
    (now : ℕ) (message : String) (dbA : List UserAnime) (dbM : List UserManga) :
    detect_and_execute_actions fa fm now message none dbA dbM = ([], dbA, dbM) :=
  rfl

/-- C3 counterexample: the `add_completed` pattern captures the rating `0`
from the utterance, but `execute_action` stores *no* rating for it (Python
`if rating:` treats `0.0` as absent), instead of the clamped `1` the claim
requires of "every operation carrying a numeric argument". -/
theorem add_completed_zero_rating_unclamped :
    reSearch regexFuel pat_add_completed
        (pyLower "add Naruto to my completed list with rating 0").data
      = some [(1, "naruto".data), (2, "0".data)]
    ∧ execute_action narutoOracle 0 1 [] AnimeActionType.add_completed
        [(1, "naruto".data), (2, "0".data)]
      = (some ⟨"add_completed", true, "Added **Naruto** to completed",
          some 20, some "Naruto"⟩,
         [⟨1, 20, AnimeStatus.completed, none, none⟩])
    ∧ clampRating 0 = 1 := by
  refine ⟨by rfl, by rfl, by norm_num [clampRating]⟩

lemma clampRating_bounds (v : ℚ) : 1 ≤ clampRating v ∧ clampRating v ≤ 10 := by
  unfold clampRating
  constructor
  · apply le_min (by norm_num) (le_max_left _ _)
  · exact min_le_left _ _

/-- C3 as amended: numeric arguments are clamped to `[1,10]` at execution
time — `rate(15)` stores `10`, `rate(0)` stores `1`, `changeRating` clamps on
an existing entry, and `addOrSetStatus` clamps every *nonzero* captured
rating; a captured rating of exactly `0` in `addOrSetStatus` is treated as
absent (no rating stored) rather than clamped to `1`.  Detection itself
preserves the raw captured text. -/
theorem numeric_clamping_amended :
    (∀ v : ℚ, 1 ≤ clampRating v ∧ clampRating v ≤ 10)
    ∧ clampRating 15 = 10 ∧ clampRating 0 = 1
    ∧ (∀ (fa : String → Option FoundTitle) (now u : ℕ) (caps : Caps)
        (anime : FoundTitle), fa (capTitle caps) = some anime →
        execute_action fa now u [] AnimeActionType.rate_anime caps
          = (some ⟨"rate_anime", true,
              "Rated **" ++ anime.title ++ "** "
                ++ pyFloatRepr (clampRating (capRating caps)) ++ "/10",
              some anime.mal_id, some anime.title⟩,
             [⟨u, anime.mal_id, AnimeStatus.completed,
               some (clampRating (capRating caps)), none⟩]))
    ∧ (∀ (fa : String → Option FoundTitle) (now u : ℕ) (caps : Caps)
        (anime : FoundTitle) (st : AnimeStatus) (r0 : Option ℚ) (t0 : Option ℕ),
        fa (capTitle caps) = some anime →
        execute_action fa now u [⟨u, anime.mal_id, st, r0, t0⟩]
            AnimeActionType.change_rating caps
          = (some ⟨"change_rating", true,
              "Changed rating of **" ++ anime.title ++ "** to "
                ++ pyFloatRepr (clampRating (capRating caps)) ++ "/10",
              some anime.mal_id, some anime.title⟩,
             [⟨u, anime.mal_id, st, some (clampRating (capRating caps)), some now⟩]))
    ∧ (∀ (fa : String → Option FoundTitle) (now u : ℕ) (caps : Caps)
        (anime : FoundTitle) (cs : List Char),
        fa (capTitle caps) = some anime → getCap caps 2 = some cs →
        parsePyFloat cs ≠ 0 →
        (execute_action fa now u [] AnimeActionType.add_completed caps).2
          = [⟨u, anime.mal_id, AnimeStatus.completed,
              some (clampRating (parsePyFloat cs)), none⟩])
    ∧ (∀ (fa : String → Option FoundTitle) (now u : ℕ) (caps : Caps)
        (anime : FoundTitle) (cs : List Char),
        fa (capTitle caps) = some anime → getCap caps 2 = some cs →
        parsePyFloat cs = 0 →
        (execute_action fa now u [] AnimeActionType.add_completed caps).2
          = [⟨u, anime.mal_id, AnimeStatus.completed, none, none⟩]) := by
  refine ⟨clampRating_bounds, by norm_num [clampRating], by norm_num [clampRating],
    ?_, ?_, ?_, ?_⟩
  · intro fa now u caps anime hfa
    simp only [execute_action]
    rw [hfa]
    simp [findEntry]
  · intro fa now u caps anime st r0 t0 hfa
    simp only [execute_action]
    rw [hfa]
    simp [findEntry, updateEntry, List.find?]
  · intro fa now u caps anime cs hfa hcs hne
    simp only [execute_action]
    rw [hfa]
    simp [findEntry, capRatingOpt, hcs, pyTruthy, hne]
  · intro fa now u caps anime cs hfa hcs hz
    simp only [execute_action]
    rw [hfa]
    simp [findEntry, capRatingOpt, hcs, pyTruthy, hz]

/-- Witness for `numeric_clamping_amended`: `rate` with captured `15` on an
absent title stores the clamped rating `10`. -/
theorem numeric_clamping_amended_witness :
    execute_action narutoOracle 0 1 [] AnimeActionType.rate_anime
        [(1, "naruto".data), (2, "15".data)]
      = (some ⟨"rate_anime", true, "Rated **Naruto** 10.0/10",
          some 20, some "Naruto"⟩,
         [⟨1, 20, AnimeStatus.completed, some 10, none⟩]) := by
  have h := numeric_clamping_amended.2.2.2.1 narutoOracle 0 1
    [(1, "naruto".data), (2, "15".data)] ⟨20, "Naruto", some 8, "Action"⟩
    (by rfl)
  rw [h]
  rfl

lemma updateEntry_map_status (db : List UserAnime) (u aid : ℕ)
    (f : UserAnime → UserAnime) (hf : ∀ r, (f r).status = r.status) :
    (updateEntry db u aid f).map (fun r => r.status)
      = db.map (fun r => r.status) := by
  induction db with
  | nil => rfl
  | cons r rest ih =>
    simp only [updateEntry]
    by_cases h : (r.user_id == u && r.anime_id == aid) = true
    · rw [if_pos h]
      simp [hf r]
    · rw [if_neg h]
      simp [ih]

/-- C4: once the title resolves, `change_rating` on an absent entry fails and
leaves the store unchanged, while `rate_anime` on the same absent entry
creates a completed entry carrying the clamped rating; on an existing entry
`rate_anime` rewrites only that entry's rating and `updated_at` and every
entry's status is untouched. -/
theorem change_rating_requires_entry (fa : String → Option FoundTitle)
    (now u : ℕ) (db : List UserAnime) (caps : Caps) (anime : FoundTitle)
    (hfa : fa (capTitle caps) = some anime) :
    (findEntry db u anime.mal_id = none →
      execute_action fa now u db AnimeActionType.change_rating caps
        = (some ⟨"change_rating", false,
            anime.title ++ " is not in your list yet", none, none⟩, db))
    ∧ (findEntry db u anime.mal_id = none →
      execute_action fa now u db AnimeActionType.rate_anime caps
        = (some ⟨"rate_anime", true,
            "Rated **" ++ anime.title ++ "** "
              ++ pyFloatRepr (clampRating (capRating caps)) ++ "/10",
            some anime.mal_id, some anime.title⟩,
           db ++ [⟨u, anime.mal_id, AnimeStatus.completed,
             some (clampRating (capRating caps)), none⟩]))
    ∧ (∀ e, findEntry db u anime.mal_id = some e →
      execute_action fa now u db AnimeActionType.rate_anime caps
        = (some ⟨"rate_anime", true,
            "Rated **" ++ anime.title ++ "** "
              ++ pyFloatRepr (clampRating (capRating caps)) ++ "/10",
            some anime.mal_id, some anime.title⟩,
           updateEntry db u anime.mal_id (fun r =>
             { r with rating := some (clampRating (capRating caps)),
                      updated_at := some now }))
      ∧ (updateEntry db u anime.mal_id (fun r =>
           { r with rating := some (clampRating (capRating caps)),
                    updated_at := some now })).map (fun r => r.status)
          = db.map (fun r => r.status)) := by
  refine ⟨?_, ?_, ?_⟩
  · intro hfe
    simp only [execute_action]
    rw [hfa]
    simp [hfe]
  · intro hfe
    simp only [execute_action]
    rw [hfa]
    simp [hfe]
  · intro e hfe
    refine ⟨?_, updateEntry_map_status db u anime.mal_id _ (fun r => rfl)⟩
    simp only [execute_action]
    rw [hfa]
    simp [hfe]

/-- Witness for `change_rating_requires_entry` on a concrete store. -/
theorem change_rating_requires_entry_witness :
    execute_action narutoOracle 0 1 [] AnimeActionType.change_rating
        [(1, "naruto".data), (2, "7".data)]
      = (some ⟨"change_rating", false, "Naruto is not in your list yet",
          none, none⟩, []) :=
  (change_rating_requires_entry narutoOracle 0 1 [] [(1, "naruto".data),
      (2, "7".data)] ⟨20, "Naruto", some 8, "Action"⟩ (by rfl)).1 (by rfl)

lemma filter_deleteEntry_nil (db : List UserAnime) (u aid : ℕ)
    (h : (db.filter (fun r => r.user_id == u && r.anime_id == aid)).length ≤ 1) :
    (deleteEntry db u aid).filter (fun r => r.user_id == u && r.anime_id == aid)
      = [] := by
  induction db with
  | nil => rfl
  | cons r rest ih =>
    simp only [deleteEntry]
    by_cases hr : (r.user_id == u && r.anime_id == aid) = true
    · rw [if_pos hr]
      rw [List.filter_cons, if_pos hr] at h
      simp only [List.length_cons] at h
      have h0 : (rest.filter (fun r =>
          r.user_id == u && r.anime_id == aid)).length = 0 := by
        omega
      exact List.length_eq_zero.mp h0
    · rw [if_neg hr]
      rw [List.filter_cons, if_neg hr] at h
      rw [List.filter_cons, if_neg hr]
      exact ih h

lemma findEntry_eq_none_of_filter_nil (db : List UserAnime) (u aid : ℕ)
    (h : db.filter (fun r => r.user_id == u && r.anime_id == aid) = []) :
    findEntry db u aid = none := by
  unfold findEntry
  rw [List.find?_eq_none]
  intro x hx hpx
  have : x ∈ db.filter (fun r => r.user_id == u && r.anime_id == aid) :=
    List.mem_filter.mpr ⟨hx, hpx⟩
  rw [h] at this
  simp at this

/-- C5: with a duplicate-free store key, removing a present entry succeeds and
deletes it; an immediate second remove reports failure (a failed
`ActionResult`, not an exception) and leaves the store unchanged, which by
then holds zero entries for that (user, title) key; removing an absent entry
fails the same way with no store change. -/
theorem remove_twice_spec (fa : String → Option FoundTitle) (now u : ℕ)
    (db : List UserAnime) (caps : Caps) (anime : FoundTitle)
    (hfa : fa (capTitle caps) = some anime)
    (huniq : (db.filter (fun r =>
        r.user_id == u && r.anime_id == anime.mal_id)).length ≤ 1) :
    (∀ e, findEntry db u anime.mal_id = some e →
      execute_action fa now u db AnimeActionType.remove_anime caps
        = (some ⟨"remove_anime", true,
            "Removed **" ++ anime.title ++ "** from your list",
            some anime.mal_id, some anime.title⟩,
           deleteEntry db u anime.mal_id)
      ∧ execute_action fa now u (deleteEntry db u anime.mal_id)
            AnimeActionType.remove_anime caps
          = (some ⟨"remove_anime", false,
              anime.title ++ " wasn\u0027t in your list", none, none⟩,
             deleteEntry db u anime.mal_id)
      ∧ (deleteEntry db u anime.mal_id).filter (fun r =>
            r.user_id == u && r.anime_id == anime.mal_id) = [])
    ∧ (findEntry db u anime.mal_id = none →
      execute_action fa now u db AnimeActionType.remove_anime caps
        = (some ⟨"remove_anime", false,
            anime.title ++ " wasn\u0027t in your list", none, none⟩, db)) := by
  have hfilter := filter_deleteEntry_nil db u anime.mal_id huniq
  have hnone := findEntry_eq_none_of_filter_nil _ u anime.mal_id hfilter
  refine ⟨fun e hfe => ⟨?_, ?_, hfilter⟩, fun hfe => ?_⟩
  · simp only [execute_action]
    rw [hfa]
    simp [hfe]
  · simp only [execute_action]
    rw [hfa]
    simp [hnone]
  · simp only [execute_action]
    rw [hfa]
    simp [hfe]

/-- Witness for `remove_twice_spec` on a concrete one-entry store. -/
theorem remove_twice_spec_witness :
    execute_action narutoOracle 5 1 [⟨1, 20, AnimeStatus.watching, none, none⟩]
        AnimeActionType.remove_anime [(1, "naruto".data)]
      = (some ⟨"remove_anime", true, "Removed **Naruto** from your list",
          some 20, some "Naruto"⟩, [])
    ∧ execute_action narutoOracle 5 1 []
        AnimeActionType.remove_anime [(1, "naruto".data)]
      = (some ⟨"remove_anime", false, "Naruto wasn\u0027t in your list",
          none, none⟩, []) := by
  have h := remove_twice_spec narutoOracle 5 1
    [⟨1, 20, AnimeStatus.watching, none, none⟩] [(1, "naruto".data)]
    ⟨20, "Naruto", some 8, "Action"⟩ (by rfl) (by rfl)
  have h1 := h.1 ⟨1, 20, AnimeStatus.watching, none, none⟩ (by rfl)
  exact ⟨h1.1, h1.2.1⟩

end AniVerse
